import Mathlib

/-!
PixeLINK camera API headers.

A verification development over the three headers of `labtools/pixelink/include`:

* `PixeLINKCodes.h`  - the return-code constants,
* `PixeLINKTypes.h`  - typedefs, feature identifiers, feature flags and the
  structures exchanged with the driver,
* `PixeLINKApi.h`    - the `extern "C"` table of entry points.

The headers contain declarations only, so the embedding is a transcription of the
declarations as data (constants, structure declarations, prototypes) together with
the small computations a C compiler performs on them (typedef resolution, structure
layout).  Definitions come first, theorems afterwards.
-/

namespace PixeLINK

/-! ## PixeLINKCodes.h -/

def ApiSuccess : Nat := 0x00000000
def ApiUnknownError : Nat := 0x80000001
def ApiInvalidHandleError : Nat := 0x80000002
def ApiInvalidParameterError : Nat := 0x80000003
def ApiBufferTooSmall : Nat := 0x80000004
def ApiInvalidFunctionCallError : Nat := 0x80000005
def ApiNotSupportedError : Nat := 0x80000006
def ApiCameraInUseError : Nat := 0x80000007
def ApiNoCameraError : Nat := 0x80000008
def ApiHardwareError : Nat := 0x80000009
def ApiCameraUnknownError : Nat := 0x8000000A
def ApiOutOfBandwidthError : Nat := 0x8000000B
def ApiOutOfMemoryError : Nat := 0x8000000C
def ApiOSVersionError : Nat := 0x8000000D
def ApiNoSerialNumberError : Nat := 0x8000000E
def ApiInvalidSerialNumberError : Nat := 0x8000000F
def ApiDiskFullError : Nat := 0x80000010
def ApiIOError : Nat := 0x80000011
def ApiStreamStopped : Nat := 0x80000012
def ApiNullPointerError : Nat := 0x80000013
def ApiCreatePreviewWndError : Nat := 0x80000014
def ApiSuccessParametersChanged : Nat := 0x00000015
def ApiOutOfRangeError : Nat := 0x80000016
def ApiNoCameraAvailableError : Nat := 0x80000017
def ApiInvalidCameraName : Nat := 0x80000018
def ApiGetNextFrameBusy : Nat := 0x80000019
def ApiSuccessAlreadyRunning : Nat := 0x0000001A

def ApiStreamExistingError : Nat := 0x90000001
def ApiEnumDoneError : Nat := 0x90000002
def ApiNotEnoughResourcesError : Nat := 0x90000003
def ApiBadFrameSizeError : Nat := 0x90000004
def ApiNoStreamError : Nat := 0x90000005
def ApiVersionError : Nat := 0x90000006
def ApiNoDeviceError : Nat := 0x90000007
def ApiCannotMapFrameError : Nat := 0x90000008
def ApiOhciDriverError : Nat := 0x90000009
def ApiInvalidIoctlParameter : Nat := 0x90000010

/-- One `#define NAME value` line of a header. -/
structure Define where
  name : String
  value : Nat
  deriving DecidableEq, Repr

/-- Every `#define` of `PixeLINKCodes.h` (lines 42-79), in file order. -/
def PixeLINKCodes : List Define :=
  [ ⟨"ApiSuccess", ApiSuccess⟩,
    ⟨"ApiUnknownError", ApiUnknownError⟩,
    ⟨"ApiInvalidHandleError", ApiInvalidHandleError⟩,
    ⟨"ApiInvalidParameterError", ApiInvalidParameterError⟩,
    ⟨"ApiBufferTooSmall", ApiBufferTooSmall⟩,
    ⟨"ApiInvalidFunctionCallError", ApiInvalidFunctionCallError⟩,
    ⟨"ApiNotSupportedError", ApiNotSupportedError⟩,
    ⟨"ApiCameraInUseError", ApiCameraInUseError⟩,
    ⟨"ApiNoCameraError", ApiNoCameraError⟩,
    ⟨"ApiHardwareError", ApiHardwareError⟩,
    ⟨"ApiCameraUnknownError", ApiCameraUnknownError⟩,
    ⟨"ApiOutOfBandwidthError", ApiOutOfBandwidthError⟩,
    ⟨"ApiOutOfMemoryError", ApiOutOfMemoryError⟩,
    ⟨"ApiOSVersionError", ApiOSVersionError⟩,
    ⟨"ApiNoSerialNumberError", ApiNoSerialNumberError⟩,
    ⟨"ApiInvalidSerialNumberError", ApiInvalidSerialNumberError⟩,
    ⟨"ApiDiskFullError", ApiDiskFullError⟩,
    ⟨"ApiIOError", ApiIOError⟩,
    ⟨"ApiStreamStopped", ApiStreamStopped⟩,
    ⟨"ApiNullPointerError", ApiNullPointerError⟩,
    ⟨"ApiCreatePreviewWndError", ApiCreatePreviewWndError⟩,
    ⟨"ApiSuccessParametersChanged", ApiSuccessParametersChanged⟩,
    ⟨"ApiOutOfRangeError", ApiOutOfRangeError⟩,
    ⟨"ApiNoCameraAvailableError", ApiNoCameraAvailableError⟩,
    ⟨"ApiInvalidCameraName", ApiInvalidCameraName⟩,
    ⟨"ApiGetNextFrameBusy", ApiGetNextFrameBusy⟩,
    ⟨"ApiSuccessAlreadyRunning", ApiSuccessAlreadyRunning⟩,
    ⟨"ApiStreamExistingError", ApiStreamExistingError⟩,
    ⟨"ApiEnumDoneError", ApiEnumDoneError⟩,
    ⟨"ApiNotEnoughResourcesError", ApiNotEnoughResourcesError⟩,
    ⟨"ApiBadFrameSizeError", ApiBadFrameSizeError⟩,
    ⟨"ApiNoStreamError", ApiNoStreamError⟩,
    ⟨"ApiVersionError", ApiVersionError⟩,
    ⟨"ApiNoDeviceError", ApiNoDeviceError⟩,
    ⟨"ApiCannotMapFrameError", ApiCannotMapFrameError⟩,
    ⟨"ApiOhciDriverError", ApiOhciDriverError⟩,
    ⟨"ApiInvalidIoctlParameter", ApiInvalidIoctlParameter⟩ ]

/-- A return code seen as a 32-bit value. -/
def toU32 (c : Nat) : Nat := c % 2 ^ 32

/-- Bit 31 of the 32-bit value: the severity bit carried by the `0x8.......` and
`0x9.......` codes. -/
def failureBit (c : Nat) : Bool := (toU32 c).testBit 31

/-- The constants of `PixeLINKCodes.h` whose bit 31 is set, in file order. -/
def failureCodes : List Define := PixeLINKCodes.filter (fun d => failureBit d.value)

/-- The constants of `PixeLINKCodes.h` whose bit 31 is clear, in file order. -/
def successCodes : List Define := PixeLINKCodes.filter (fun d => !failureBit d.value)

/-! ## PixeLINKTypes.h: types and constants -/

/-- A C type as the headers spell it. -/
inductive CType where
  /-- A builtin or typedef name: `int`, `float`, `U32`, `HANDLE`, ... -/
  | name (n : String)
  /-- A structure named by its tag: `struct _FRAME_DESC`. -/
  | struct (tag : String)
  /-- A pointer: `t *`. -/
  | ptr (t : CType)
  deriving DecidableEq, Repr

/-- One `typedef target name;`. -/
structure Typedef where
  name : String
  target : CType
  deriving DecidableEq, Repr

/-- The typedefs of `PixeLINKTypes.h` (lines 43-54 and the structure typedefs), in
file order.  `ULONG`, `USHORT`, `UCHAR`, `LONG`, `SHORT`, `CHAR` come from the
platform headers and stay unresolved names. -/
def typedefs : List Typedef :=
  [ ⟨"U32", .name "ULONG"⟩, ⟨"PU32", .ptr (.name "ULONG")⟩,
    ⟨"U16", .name "USHORT"⟩, ⟨"PU16", .ptr (.name "USHORT")⟩,
    ⟨"U8", .name "UCHAR"⟩, ⟨"PU8", .ptr (.name "UCHAR")⟩,
    ⟨"S32", .name "LONG"⟩, ⟨"PS32", .ptr (.name "LONG")⟩,
    ⟨"S16", .name "SHORT"⟩, ⟨"PS16", .ptr (.name "SHORT")⟩,
    ⟨"S8", .name "CHAR"⟩, ⟨"PS8", .ptr (.name "CHAR")⟩,
    ⟨"F32", .name "float"⟩, ⟨"PF32", .ptr (.name "float")⟩,
    ⟨"PXL_RETURN_CODE", .name "int"⟩,
    ⟨"FEATURE_PARAM", .struct "_FEATURE_PARAM"⟩,
    ⟨"PFEATURE_PARAM", .ptr (.struct "_FEATURE_PARAM")⟩,
    ⟨"CAMERA_FEATURE", .struct "_CAMERA_FEATURE"⟩,
    ⟨"PCAMERA_FEATURE", .ptr (.struct "_CAMERA_FEATURE")⟩,
    ⟨"CAMERA_FEATURES", .struct "_CAMERA_FEATURES"⟩,
    ⟨"PCAMERA_FEATURES", .ptr (.struct "_CAMERA_FEATURES")⟩,
    ⟨"CAMERA_INFO", .struct "_CAMERA_INFO"⟩,
    ⟨"PCAMERA_INFO", .ptr (.struct "_CAMERA_INFO")⟩,
    ⟨"FRAME_DESC", .struct "_FRAME_DESC"⟩,
    ⟨"PFRAME_DESC", .ptr (.struct "_FRAME_DESC")⟩,
    ⟨"ERROR_REPORT", .struct "_ERROR_REPORT"⟩,
    ⟨"PERROR_REPORT", .ptr (.struct "_ERROR_REPORT")⟩ ]

/-- The target of the typedef called `n`, when the header declares one. -/
def lookupTypedef (n : String) : Option CType :=
  (typedefs.find? (fun t => t.name = n)).map Typedef.target

/-- Typedef resolution of the outermost type constructor: a typedef name is replaced
by its target until a builtin or platform name, a structure or a pointer is reached.
No typedef of the header refers to another typedef, so one step per typedef
suffices; the fuel is the number of typedefs. -/
def resolveFuel : Nat → CType → CType
  | 0, t => t
  | fuel + 1, .name n =>
      match lookupTypedef n with
      | some t => resolveFuel fuel t
      | none => .name n
  | _ + 1, t => t

def resolve (t : CType) : CType := resolveFuel typedefs.length t

def FEATURE_BRIGHTNESS : Nat := 0
def FEATURE_EXPOSURE : Nat := 1
def FEATURE_SHARPNESS : Nat := 2
def FEATURE_WHITE_BAL : Nat := 3
def FEATURE_HUE : Nat := 4
def FEATURE_SATURATION : Nat := 5
def FEATURE_GAMMA : Nat := 6
def FEATURE_SHUTTER : Nat := 7
def FEATURE_GAIN : Nat := 8
def FEATURE_IRIS : Nat := 9
def FEATURE_FOCUS : Nat := 10
def FEATURE_TEMPERATURE : Nat := 11
def FEATURE_TRIGGER : Nat := 12
def FEATURE_ZOOM : Nat := 13
def FEATURE_PAN : Nat := 14
def FEATURE_TILT : Nat := 15
def FEATURE_OPT_FILTER : Nat := 16
def FEATURE_GPIO : Nat := 17
def FEATURE_FRAME_RATE : Nat := 18
def FEATURE_ROI : Nat := 19
def FEATURE_FLIP : Nat := 20
def FEATURE_DECIMATION : Nat := 21
def FEATURE_PIXEL_FORMAT : Nat := 22
def FEATURE_EXTENDED_SHUTTER : Nat := 23
def FEATURE_AUTO_ROI : Nat := 24
def FEATURE_LOOKUP_TABLE : Nat := 25
def FEATURE_MEMORY_CHANNEL : Nat := 26

def FEATURES_TOTAL : Nat := 27

def FEATURE_ALL : Nat := 0xFFFFFFFF

/-- The feature identifiers of `PixeLINKTypes.h` (lines 60-86), in file order. -/
def featureIds : List Define :=
  [ ⟨"FEATURE_BRIGHTNESS", FEATURE_BRIGHTNESS⟩,
    ⟨"FEATURE_EXPOSURE", FEATURE_EXPOSURE⟩,
    ⟨"FEATURE_SHARPNESS", FEATURE_SHARPNESS⟩,
    ⟨"FEATURE_WHITE_BAL", FEATURE_WHITE_BAL⟩,
    ⟨"FEATURE_HUE", FEATURE_HUE⟩,
    ⟨"FEATURE_SATURATION", FEATURE_SATURATION⟩,
    ⟨"FEATURE_GAMMA", FEATURE_GAMMA⟩,
    ⟨"FEATURE_SHUTTER", FEATURE_SHUTTER⟩,
    ⟨"FEATURE_GAIN", FEATURE_GAIN⟩,
    ⟨"FEATURE_IRIS", FEATURE_IRIS⟩,
    ⟨"FEATURE_FOCUS", FEATURE_FOCUS⟩,
    ⟨"FEATURE_TEMPERATURE", FEATURE_TEMPERATURE⟩,
    ⟨"FEATURE_TRIGGER", FEATURE_TRIGGER⟩,
    ⟨"FEATURE_ZOOM", FEATURE_ZOOM⟩,
    ⟨"FEATURE_PAN", FEATURE_PAN⟩,
    ⟨"FEATURE_TILT", FEATURE_TILT⟩,
    ⟨"FEATURE_OPT_FILTER", FEATURE_OPT_FILTER⟩,
    ⟨"FEATURE_GPIO", FEATURE_GPIO⟩,
    ⟨"FEATURE_FRAME_RATE", FEATURE_FRAME_RATE⟩,
    ⟨"FEATURE_ROI", FEATURE_ROI⟩,
    ⟨"FEATURE_FLIP", FEATURE_FLIP⟩,
    ⟨"FEATURE_DECIMATION", FEATURE_DECIMATION⟩,
    ⟨"FEATURE_PIXEL_FORMAT", FEATURE_PIXEL_FORMAT⟩,
    ⟨"FEATURE_EXTENDED_SHUTTER", FEATURE_EXTENDED_SHUTTER⟩,
    ⟨"FEATURE_AUTO_ROI", FEATURE_AUTO_ROI⟩,
    ⟨"FEATURE_LOOKUP_TABLE", FEATURE_LOOKUP_TABLE⟩,
    ⟨"FEATURE_MEMORY_CHANNEL", FEATURE_MEMORY_CHANNEL⟩ ]

def FEATURE_FLAG_PRESENCE : Nat := 0x00000001
def FEATURE_FLAG_MANUAL : Nat := 0x00000002
def FEATURE_FLAG_AUTO : Nat := 0x00000004
def FEATURE_FLAG_ONEPUSH : Nat := 0x00000008
def FEATURE_FLAG_OFF : Nat := 0x00000010
def FEATURE_FLAG_DESC_SUPPORTED : Nat := 0x00000020
def FEATURE_FLAG_READ_ONLY : Nat := 0x00000040

/-- The seven feature flags of `PixeLINKTypes.h` (lines 94-100), in file order. -/
def featureFlags : List Nat :=
  [ FEATURE_FLAG_PRESENCE, FEATURE_FLAG_MANUAL, FEATURE_FLAG_AUTO, FEATURE_FLAG_ONEPUSH,
    FEATURE_FLAG_OFF, FEATURE_FLAG_DESC_SUPPORTED, FEATURE_FLAG_READ_ONLY ]

/-- The value of `CAMERA_FEATURE.uFlags` that announces the flags of `S`: their
bitwise OR. -/
def flagsOr (S : List Nat) : Nat := S.foldr (fun f acc => f ||| acc) 0

def PXL_MAX_STROBES : Nat := 16
def PXL_MAX_KNEE_POINTS : Nat := 4

/-! ## PixeLINKTypes.h: structures -/

/-- A data member `type name;` (`len = none`) or `type name[n];` (`len = some n`). -/
structure Field where
  type : CType
  name : String
  len : Option Nat
  deriving DecidableEq, Repr

/-- A member of a structure: a data member, or a nested structure
`struct tag { fields } name;` whose tag may be absent. -/
inductive Member where
  | field (f : Field)
  | sub (tag : Option String) (name : String) (fields : List Field)
  deriving DecidableEq, Repr

/-- The declaration `typedef struct tag { members } name, *pname;`. -/
structure StructDecl where
  tag : String
  name : String
  members : List Member
  deriving DecidableEq, Repr

def Member.name : Member → String
  | .field f => f.name
  | .sub _ n _ => n

/-- The data members a member contributes: itself, or the fields of the nested
structure. -/
def Member.fields : Member → List Field
  | .field f => [f]
  | .sub _ _ fs => fs

/-- The nested structures of a declaration, in declaration order. -/
def StructDecl.subRecords (s : StructDecl) : List Member :=
  s.members.filter (fun m => match m with
    | .sub _ _ _ => true
    | .field _ => false)

/-- One `float fValue;` nested structure. -/
def valueRecord (tag : Option String) (name : String) : Member :=
  .sub tag name [⟨.name "float", "fValue", none⟩]

/-- The structure `CAMERA_INFO` (lines 169-178). -/
def CAMERA_INFO : StructDecl :=
  { tag := "_CAMERA_INFO", name := "CAMERA_INFO",
    members :=
      [ .field ⟨.name "S8", "VendorName", some 33⟩,
        .field ⟨.name "S8", "ModelName", some 33⟩,
        .field ⟨.name "S8", "Description", some 256⟩,
        .field ⟨.name "S8", "SerialNumber", some 33⟩,
        .field ⟨.name "S8", "FirmwareVersion", some 12⟩,
        .field ⟨.name "S8", "FPGAVersion", some 12⟩,
        .field ⟨.name "S8", "CameraName", some 256⟩ ] }

/-- The structure `FRAME_DESC` (lines 181-302). -/
def FRAME_DESC : StructDecl :=
  { tag := "_FRAME_DESC", name := "FRAME_DESC",
    members :=
      [ .field ⟨.name "U32", "uSize", none⟩,
        .field ⟨.name "float", "fFrameTime", none⟩,
        .field ⟨.name "U32", "uFrameNumber", none⟩,
        valueRecord (some "_Brightness") "Brightness",
        valueRecord none "AutoExposure",
        valueRecord none "Sharpness",
        valueRecord none "WhiteBalance",
        valueRecord none "Hue",
        valueRecord none "Saturation",
        valueRecord none "Gamma",
        valueRecord none "Shutter",
        valueRecord none "Gain",
        valueRecord none "Iris",
        valueRecord none "Focus",
        valueRecord none "Temperature",
        .sub none "Trigger"
          [ ⟨.name "float", "fMode", none⟩,
            ⟨.name "float", "fType", none⟩,
            ⟨.name "float", "fPolarity", none⟩,
            ⟨.name "float", "fDelay", none⟩,
            ⟨.name "float", "fParameter", none⟩ ],
        valueRecord none "Zoom",
        valueRecord none "Pan",
        valueRecord none "Tilt",
        valueRecord none "OpticalFilter",
        .sub none "GPIO"
          [ ⟨.name "float", "fMode", some PXL_MAX_STROBES⟩,
            ⟨.name "float", "fPolarity", some PXL_MAX_STROBES⟩,
            ⟨.name "float", "fParameter1", some PXL_MAX_STROBES⟩,
            ⟨.name "float", "fParameter2", some PXL_MAX_STROBES⟩,
            ⟨.name "float", "fParameter3", some PXL_MAX_STROBES⟩ ],
        valueRecord none "FrameRate",
        .sub none "Roi"
          [ ⟨.name "float", "fLeft", none⟩,
            ⟨.name "float", "fTop", none⟩,
            ⟨.name "float", "fWidth", none⟩,
            ⟨.name "float", "fHeight", none⟩ ],
        .sub none "Flip"
          [ ⟨.name "float", "fHorizontal", none⟩,
            ⟨.name "float", "fVertical", none⟩ ],
        valueRecord none "Decimation",
        valueRecord none "PixelFormat",
        .sub none "ExtendedShutter"
          [ ⟨.name "float", "fKneePoint", some PXL_MAX_KNEE_POINTS⟩ ],
        .sub none "AutoROI"
          [ ⟨.name "float", "fLeft", none⟩,
            ⟨.name "float", "fTop", none⟩,
            ⟨.name "float", "fWidth", none⟩,
            ⟨.name "float", "fHeight", none⟩ ] ] }

/-- The structure `ERROR_REPORT` (lines 304-310). -/
def ERROR_REPORT : StructDecl :=
  { tag := "_ERROR_REPORT", name := "ERROR_REPORT",
    members :=
      [ .field ⟨.name "PXL_RETURN_CODE", "uReturnCode", none⟩,
        .field ⟨.name "S8", "strFunctionName", some 32⟩,
        .field ⟨.name "S8", "strReturnCode", some 32⟩,
        .field ⟨.name "S8", "strReport", some 256⟩ ] }

/-- The feature a nested structure of `FRAME_DESC` is named after: the member name
read against the `FEATURE_*` identifiers (`AutoExposure` for `FEATURE_EXPOSURE`,
`WhiteBalance` for `FEATURE_WHITE_BAL`, `OpticalFilter` for `FEATURE_OPT_FILTER`).
The last two names are the ones a member for `FEATURE_LOOKUP_TABLE` or
`FEATURE_MEMORY_CHANNEL` would carry; `FRAME_DESC` declares no such member. -/
def subRecordFeature (memberName : String) : Option Nat :=
  if memberName = "Brightness" then some FEATURE_BRIGHTNESS
  else if memberName = "AutoExposure" then some FEATURE_EXPOSURE
  else if memberName = "Sharpness" then some FEATURE_SHARPNESS
  else if memberName = "WhiteBalance" then some FEATURE_WHITE_BAL
  else if memberName = "Hue" then some FEATURE_HUE
  else if memberName = "Saturation" then some FEATURE_SATURATION
  else if memberName = "Gamma" then some FEATURE_GAMMA
  else if memberName = "Shutter" then some FEATURE_SHUTTER
  else if memberName = "Gain" then some FEATURE_GAIN
  else if memberName = "Iris" then some FEATURE_IRIS
  else if memberName = "Focus" then some FEATURE_FOCUS
  else if memberName = "Temperature" then some FEATURE_TEMPERATURE
  else if memberName = "Trigger" then some FEATURE_TRIGGER
  else if memberName = "Zoom" then some FEATURE_ZOOM
  else if memberName = "Pan" then some FEATURE_PAN
  else if memberName = "Tilt" then some FEATURE_TILT
  else if memberName = "OpticalFilter" then some FEATURE_OPT_FILTER
  else if memberName = "GPIO" then some FEATURE_GPIO
  else if memberName = "FrameRate" then some FEATURE_FRAME_RATE
  else if memberName = "Roi" then some FEATURE_ROI
  else if memberName = "Flip" then some FEATURE_FLIP
  else if memberName = "Decimation" then some FEATURE_DECIMATION
  else if memberName = "PixelFormat" then some FEATURE_PIXEL_FORMAT
  else if memberName = "ExtendedShutter" then some FEATURE_EXTENDED_SHUTTER
  else if memberName = "AutoROI" then some FEATURE_AUTO_ROI
  else if memberName = "LookupTable" then some FEATURE_LOOKUP_TABLE
  else if memberName = "MemoryChannel" then some FEATURE_MEMORY_CHANNEL
  else none

/-- The features that have a nested structure in `FRAME_DESC`, in declaration
order. -/
def frameDescFeatures : List Nat :=
  FRAME_DESC.subRecords.filterMap (fun m => subRecordFeature m.name)

/-- `FRAME_DESC` contains a nested structure holding the value(s) of feature `i`. -/
def hasSubRecord (i : Nat) : Prop :=
  ∃ m ∈ FRAME_DESC.subRecords, subRecordFeature m.name = some i

/-- Number of `float` slots a list of data members declares: one per scalar, `n` per
array of length `n`. -/
def floatSlots (fs : List Field) : Nat :=
  ((fs.filter (fun f => resolve f.type = .name "float")).map (fun f => f.len.getD 1)).sum

/-- The data members of the nested structure called `n`. -/
def StructDecl.fieldsOf (s : StructDecl) (n : String) : List Field :=
  match s.members.find? (fun m => m.name = n) with
  | some m => m.fields
  | none => []

/-! ## Structure layout

The headers fix no packing, so members are laid out by the usual C rule: every
member goes to the next multiple of its alignment, a scalar is aligned to its own
size, an array to its element, a structure to its most aligned member, and the size
of a structure is rounded up to its alignment.  The widths of the scalar types are
declared by the platform, not by these headers, and are a parameter. -/

/-- Widths in bytes of the scalar types the headers take from the platform. -/
structure Platform where
  sizeofULONG : Nat
  sizeofUSHORT : Nat
  sizeofUCHAR : Nat
  sizeofLONG : Nat
  sizeofSHORT : Nat
  sizeofCHAR : Nat
  sizeofFloat : Nat
  sizeofInt : Nat
  sizeofPointer : Nat
  deriving Repr

/-- The 32-bit Windows platform the headers were written for. -/
def win32 : Platform :=
  { sizeofULONG := 4, sizeofUSHORT := 2, sizeofUCHAR := 1, sizeofLONG := 4,
    sizeofSHORT := 2, sizeofCHAR := 1, sizeofFloat := 4, sizeofInt := 4,
    sizeofPointer := 4 }

/-- Width of a scalar or pointer type after typedef resolution; `none` for a type
that is not a scalar of the platform. -/
def sizeofScalar (P : Platform) (t : CType) : Option Nat :=
  match resolve t with
  | .ptr _ => some P.sizeofPointer
  | .struct _ => none
  | .name n =>
      if n = "ULONG" then some P.sizeofULONG
      else if n = "USHORT" then some P.sizeofUSHORT
      else if n = "UCHAR" then some P.sizeofUCHAR
      else if n = "LONG" then some P.sizeofLONG
      else if n = "SHORT" then some P.sizeofSHORT
      else if n = "CHAR" then some P.sizeofCHAR
      else if n = "float" then some P.sizeofFloat
      else if n = "int" then some P.sizeofInt
      else none

/-- A placed member: its name, byte offset and size. -/
structure Placed where
  name : String
  offset : Nat
  size : Nat
  deriving DecidableEq, Repr

/-- Something to be placed in a structure: its name, size and alignment, and the
data members it is made of with their offsets from its start (a data member is
made of itself, a nested structure of its data members). -/
structure Item where
  name : String
  size : Nat
  align : Nat
  parts : List Placed
  deriving DecidableEq, Repr

/-- The layout of a structure: the placed members, every data member (those of
nested structures included, named `Outer.inner`) with its offset from the start of
the structure, `sizeof` and the alignment. -/
structure Layout where
  placed : List Placed
  leaves : List Placed
  size : Nat
  align : Nat
  deriving DecidableEq, Repr

/-- The least multiple of `a` that is at least `off` (`off` itself when `a = 0`). -/
def alignUp (off a : Nat) : Nat :=
  if a = 0 then off else (off + a - 1) / a * a

/-- Moves a placed member by `base` bytes. -/
def Placed.shift (base : Nat) (p : Placed) : Placed :=
  ⟨p.name, base + p.offset, p.size⟩

/-- Places the items one after the other from offset `off`, each at the next
multiple of its alignment; returns the layout whose `size` is the offset after the
last item and whose `align` is the largest alignment met (at least `a`). -/
def placeFrom : Nat → Nat → List Item → Layout
  | off, a, [] => ⟨[], [], off, a⟩
  | off, a, it :: rest =>
      match placeFrom (alignUp off it.align + it.size) (max a it.align) rest with
      | ⟨ps, ls, e, a2⟩ =>
          ⟨⟨it.name, alignUp off it.align, it.size⟩ :: ps,
           it.parts.map (Placed.shift (alignUp off it.align)) ++ ls, e, a2⟩

/-- Layout of a structure made of `items`: members placed from offset 0, size
rounded up to the alignment of the structure. -/
def layoutItems (items : List Item) : Layout :=
  match placeFrom 0 1 items with
  | ⟨ps, ls, e, a⟩ => ⟨ps, ls, alignUp e a, a⟩

def fieldItem (P : Platform) (f : Field) : Option Item :=
  (sizeofScalar P f.type).map (fun w =>
    ⟨f.name, w * f.len.getD 1, w, [⟨f.name, 0, w * f.len.getD 1⟩]⟩)

def fieldsLayout (P : Platform) (fs : List Field) : Option Layout :=
  (fs.mapM (fieldItem P)).map layoutItems

def memberItem (P : Platform) : Member → Option Item
  | .field f => fieldItem P f
  | .sub _ n fs =>
      (fieldsLayout P fs).map (fun L =>
        ⟨n, L.size, L.align, L.leaves.map (fun q => ⟨n ++ "." ++ q.name, q.offset, q.size⟩)⟩)

/-- The members of a structure declaration as items to place. -/
def structItems (P : Platform) (s : StructDecl) : Option (List Item) :=
  s.members.mapM (memberItem P)

/-- Layout of a structure declaration. -/
def structLayout (P : Platform) (s : StructDecl) : Option Layout :=
  (structItems P s).map layoutItems

/-- The value of `sizeof(s)`. -/
def sizeofStruct (P : Platform) (s : StructDecl) : Option Nat :=
  (structLayout P s).map Layout.size

/-- The value of `offsetof(s, member)`. -/
def offsetOf (P : Platform) (s : StructDecl) (member : String) : Option Nat :=
  (structLayout P s).bind (fun L =>
    (L.placed.find? (fun p => p.name = member)).map Placed.offset)

/-- Every data member of a structure, nested ones included, with its offset from
the start of the structure, in declaration order. -/
def leafLayout (P : Platform) (s : StructDecl) : Option (List Placed) :=
  (structLayout P s).map Layout.leaves

/-- The placed members follow each other from offset `off` without a gap. -/
def contiguousFrom : Nat → List Placed → Bool
  | _, [] => true
  | off, p :: rest => p.offset == off && contiguousFrom (off + p.size) rest

/-! ## PixeLINKApi.h -/

/-- The direction annotation written before a parameter. -/
inductive Dir where
  | IN
  | OUT
  | IN_OUT
  deriving DecidableEq, Repr

/-- A parameter `dir type name`. -/
structure Param where
  dir : Dir
  type : CType
  name : String
  deriving DecidableEq, Repr

/-- A parameter of an entry point: a plain one, or a callback
`dir ret (_stdcall * name)(params)`. -/
inductive ParamDecl where
  | plain (p : Param)
  | callback (dir : Dir) (ret : CType) (name : String) (params : List Param)
  deriving DecidableEq, Repr

/-- The prototype `ret PXL_API name(params);`. -/
structure Prototype where
  ret : CType
  name : String
  params : List ParamDecl
  deriving DecidableEq, Repr

def ParamDecl.dir : ParamDecl → Dir
  | .plain p => p.dir
  | .callback d _ _ _ => d

def ParamDecl.name : ParamDecl → String
  | .plain p => p.name
  | .callback _ _ n _ => n

/-- A plain parameter `dir t name`, written shortly. -/
def arg (dir : Dir) (t : String) (name : String) : ParamDecl :=
  .plain ⟨dir, .name t, name⟩

/-- The `extern "C"` block of `PixeLINKApi.h` (lines 50-225), in file order.  The
default arguments of `PxLSetPreviewSettings` are not part of the parameter types and
are left out. -/
def PixeLINKApi : List Prototype :=
  [ ⟨.name "PXL_RETURN_CODE", "PxLFormatClip",
      [ arg .IN "LPSTR" "pInputFileName",
        arg .IN "LPSTR" "pOutputFileName",
        arg .IN "U32" "uOutputFormat" ]⟩,
    ⟨.name "PXL_RETURN_CODE", "PxLFormatImage",
      [ arg .IN "LPVOID" "pSrc",
        arg .IN "PFRAME_DESC" "pFrameDesc",
        arg .IN "U32" "uOutputFormat",
        arg .OUT "LPVOID" "pDest",
        arg .IN_OUT "PU32" "pDestBufferSize" ]⟩,
    ⟨.name "PXL_RETURN_CODE", "PxLGetCameraFeatures",
      [ arg .IN "HANDLE" "hCamera",
        arg .IN "U32" "uFeatureId",
        arg .OUT "PCAMERA_FEATURES" "pFeatureInfo",
        arg .IN_OUT "PU32" "pBufferSize" ]⟩,
    ⟨.name "PXL_RETURN_CODE", "PxLGetCameraInfo",
      [ arg .IN "HANDLE" "hCamera",
        arg .OUT "PCAMERA_INFO" "pInformation" ]⟩,
    ⟨.name "PXL_RETURN_CODE", "PxLGetClip",
      [ arg .IN "HANDLE" "hCamera",
        arg .IN "U32" "uNumberOfFrames",
        arg .IN "LPSTR" "pFileName",
        .callback .IN (.name "U32") "TerminationFunction"
          [ ⟨.IN, .name "HANDLE", "hCamera"⟩,
            ⟨.IN, .name "U32", "uNumberOfFramesCaptured"⟩,
            ⟨.IN, .name "PXL_RETURN_CODE", "uRetCode"⟩ ] ]⟩,
    ⟨.name "PXL_RETURN_CODE", "PxLGetErrorReport",
      [ arg .IN "HANDLE" "hCamera",
        arg .OUT "PERROR_REPORT" "pErrorReport" ]⟩,
    ⟨.name "PXL_RETURN_CODE", "PxLGetFeature",
      [ arg .IN "HANDLE" "hCamera",
        arg .IN "U32" "uFeatureId",
        arg .OUT "PU32" "pFlags",
        arg .IN_OUT "PU32" "pNumberParms",
        arg .OUT "PF32" "pParms" ]⟩,
    ⟨.name "PXL_RETURN_CODE", "PxLGetNextFrame",
      [ arg .IN "HANDLE" "hCamera",
        arg .IN "U32" "uBufferSize",
        arg .OUT "LPVOID" "pFrame",
        arg .OUT "PFRAME_DESC" "pDescriptor" ]⟩,
    ⟨.name "PXL_RETURN_CODE", "PxLGetNumberCameras",
      [ arg .OUT "PU32" "pSerialNumbers",
        arg .IN_OUT "PU32" "pNumberSerial" ]⟩,
    ⟨.name "PXL_RETURN_CODE", "PxLInitialize",
      [ arg .IN "U32" "uSerialNumber",
        .plain ⟨.OUT, .ptr (.name "HANDLE"), "phCamera"⟩ ]⟩,
    ⟨.name "PXL_RETURN_CODE", "PxLResetPreviewWindow",
      [ arg .IN "HANDLE" "hCamera" ]⟩,
    ⟨.name "PXL_RETURN_CODE", "PxLSetCallback",
      [ arg .IN "HANDLE" "hCamera",
        arg .IN "U32" "uOverlayUse",
        arg .IN "LPVOID" "pContext",
        .callback .IN (.name "U32") "DataProcessFunction"
          [ ⟨.IN, .name "HANDLE", "hCamera"⟩,
            ⟨.IN_OUT, .name "LPVOID", "pFrameData"⟩,
            ⟨.IN, .name "U32", "uDataFormat"⟩,
            ⟨.IN, .name "PFRAME_DESC", "pDescriptor"⟩,
            ⟨.IN, .name "LPVOID", "pContext"⟩ ] ]⟩,
    ⟨.name "PXL_RETURN_CODE", "PxLSetCameraName",
      [ arg .IN "HANDLE" "hCamera",
        arg .IN "LPSTR" "pCameraName" ]⟩,
    ⟨.name "PXL_RETURN_CODE", "PxLSetFeature",
      [ arg .IN "HANDLE" "hCamera",
        arg .IN "U32" "uFeatureId",
        arg .IN "U32" "uFlags",
        arg .IN "U32" "uNumberParms",
        arg .IN "PF32" "pParms" ]⟩,
    ⟨.name "PXL_RETURN_CODE", "PxLSetPreviewSettings",
      [ arg .IN "HANDLE" "hCamera",
        arg .IN "LPSTR" "pTitle",
        arg .IN "U32" "uStyle",
        arg .IN "U32" "uLeft",
        arg .IN "U32" "uTop",
        arg .IN "U32" "uWidth",
        arg .IN "U32" "uHeight",
        arg .IN "HWND" "hParent",
        arg .IN "U32" "uChildId" ]⟩,
    ⟨.name "PXL_RETURN_CODE", "PxLSetPreviewState",
      [ arg .IN "HANDLE" "hCamera",
        arg .IN "U32" "uPreviewState",
        .plain ⟨.OUT, .ptr (.name "HWND"), "pHWnd"⟩ ]⟩,
    ⟨.name "PXL_RETURN_CODE", "PxLSetStreamState",
      [ arg .IN "HANDLE" "hCamera",
        arg .IN "U32" "uStreamState" ]⟩,
    ⟨.name "PXL_RETURN_CODE", "PxLUninitialize",
      [ arg .IN "HANDLE" "hCamera" ]⟩,
    ⟨.name "PXL_RETURN_CODE", "PxLCreateDescriptor",
      [ arg .IN "HANDLE" "hCamera",
        .plain ⟨.OUT, .ptr (.name "HANDLE"), "pDescriptorHandle"⟩,
        arg .IN "U32" "uUpdateMode" ]⟩,
    ⟨.name "PXL_RETURN_CODE", "PxLRemoveDescriptor",
      [ arg .IN "HANDLE" "hCamera",
        arg .IN "HANDLE" "hDescriptor" ]⟩,
    ⟨.name "PXL_RETURN_CODE", "PxLUpdateDescriptor",
      [ arg .IN "HANDLE" "hCamera",
        arg .IN "HANDLE" "hDescriptor",
        arg .IN "U32" "uUpdateMode" ]⟩,
    ⟨.name "PXL_RETURN_CODE", "PxLSaveSettings",
      [ arg .IN "HANDLE" "hCamera",
        arg .IN "U32" "uChannel" ]⟩,
    ⟨.name "PXL_RETURN_CODE", "PxLLoadSettings",
      [ arg .IN "HANDLE" "hCamera",
        arg .IN "U32" "uChannel" ]⟩ ]

/-- The parameter declaration `IN HANDLE hCamera`. -/
def inCameraHandle : ParamDecl := arg .IN "HANDLE" "hCamera"

/-- The parameter declaration `OUT HANDLE* phCamera`. -/
def outCameraHandle : ParamDecl := .plain ⟨.OUT, .ptr (.name "HANDLE"), "phCamera"⟩

/-- The prototype has a parameter declared `IN OUT PU32`. -/
def hasInOutSize (f : Prototype) : Bool :=
  f.params.any (fun p => match p with
    | .plain q => q.dir = .IN_OUT && q.type = .name "PU32"
    | .callback _ _ _ _ => false)

/-- The prototype has an `OUT` parameter called `n`. -/
def hasOutParam (f : Prototype) (n : String) : Bool :=
  f.params.any (fun p => p.dir = .OUT && p.name = n)

/-- The entry points that fill a caller-allocated buffer of variable length, each
with the name of the buffer parameter. -/
def variableLengthOutputs : List (String × String) :=
  [ ("PxLFormatImage", "pDest"),
    ("PxLGetCameraFeatures", "pFeatureInfo"),
    ("PxLGetFeature", "pParms"),
    ("PxLGetNextFrame", "pFrame"),
    ("PxLGetNumberCameras", "pSerialNumbers") ]

/-- The type is a pointer. -/
def CType.isPtr : CType → Bool
  | .ptr _ => true
  | _ => false

/-- The type is a structure. -/
def CType.isStruct : CType → Bool
  | .struct _ => true
  | _ => false

/-- The members of the layout fill it exactly: they follow each other from offset 0
without a gap and their sizes add up to the size of the structure. -/
def Layout.noPadding (L : Layout) : Bool :=
  contiguousFrom 0 L.leaves && (L.leaves.map Placed.size).sum == L.size

/-- The member is an array of `S8` of declared length. -/
def Member.isCharArray : Member → Bool
  | .field f => f.type = .name "S8" && f.len.isSome
  | .sub _ _ _ => false

/-- The member is a nested structure all of whose data members are `float`. -/
def Member.isFloatRecord : Member → Bool
  | .field _ => false
  | .sub _ _ fs => fs.all (fun f => f.type = .name "float")

/-! ## Return codes as `PXL_RETURN_CODE` -/

/-- Conversion of a value to a two's complement signed integer of `bits` bits: the
value modulo `2 ^ bits`, read as negative when its top bit is set. -/
def toSigned (bits : Nat) (c : Nat) : Int :=
  if c % 2 ^ bits < 2 ^ (bits - 1) then ((c % 2 ^ bits : Nat) : Int)
  else ((c % 2 ^ bits : Nat) : Int) - ((2 ^ bits : Nat) : Int)

/-- A return-code constant converted to `PXL_RETURN_CODE`, that is to the `int` of
the platform. -/
def toReturnCode (P : Platform) (c : Nat) : Int :=
  toSigned (8 * P.sizeofInt) c

/-- The return code with bit 31 cleared: its ordinal within its family. -/
def clearBit31 (c : Nat) : Nat := c &&& 0x7FFFFFFF

/-- The constants of the primary family, `ApiSuccess .. ApiSuccessAlreadyRunning`
(lines 42-68 of `PixeLINKCodes.h`). -/
def primaryCodes : List Define := PixeLINKCodes.take 27

/-! ## Helpers for the layout of `FRAME_DESC` on any platform -/

/-- Number of array slots the data members of a member declare. -/
def Member.slots (m : Member) : Nat :=
  (m.fields.map (fun f => f.len.getD 1)).sum

/-- The member is a `U32` or `float` data member, or a nested structure of `float`
data members: the shapes `FRAME_DESC` is made of. -/
def Member.isFrameMember : Member → Bool
  | .field f => f.type = .name "U32" || f.type = .name "float"
  | .sub _ _ fs => fs.all (fun f => f.type = .name "float")

/-! ## Theorems -/

/-- C1: the constants of `PixeLINKCodes.h` with bit 31 set are the 24 codes
`0x80000001..0x80000014`, `0x80000016..0x80000019` followed by the 10 codes of the
`0x9000000x` family, 34 in total; as 32-bit values they are pairwise distinct and
none of them equals `ApiSuccess`, `ApiSuccessParametersChanged` or
`ApiSuccessAlreadyRunning`. -/
theorem failureCodes_distinct :
    failureCodes.map Define.value
        = List.range' 0x80000001 20 ++ List.range' 0x80000016 4
            ++ (List.range' 0x90000001 9 ++ [0x90000010])
      ∧ failureCodes.length = 34
      ∧ failureCodes.Pairwise (fun a b => toU32 a.value ≠ toU32 b.value)
      ∧ ∀ d ∈ failureCodes,
          toU32 d.value ≠ toU32 ApiSuccess
            ∧ toU32 d.value ≠ toU32 ApiSuccessParametersChanged
            ∧ toU32 d.value ≠ toU32 ApiSuccessAlreadyRunning := by
  and_intros <;> decide

/-- C2 (as stated, refuted): `ApiSuccessParametersChanged` is a constant of
`PixeLINKCodes.h` other than `ApiSuccess` whose bit 31 is clear, so it is not true
that every constant other than `ApiSuccess` has the failure bit set. -/
theorem single_success_value_fails :
    ¬ (∀ d ∈ PixeLINKCodes, d.name ≠ "ApiSuccess" → failureBit d.value = true) := by
  decide

/-- C2 (amended): exactly three constants of `PixeLINKCodes.h` have bit 31 clear,
`ApiSuccess` (0x00), `ApiSuccessParametersChanged` (0x15) and
`ApiSuccessAlreadyRunning` (0x1A); every other constant defined there has bit 31
set. -/
theorem three_success_values :
    successCodes
        = [⟨"ApiSuccess", 0x00000000⟩, ⟨"ApiSuccessParametersChanged", 0x00000015⟩,
           ⟨"ApiSuccessAlreadyRunning", 0x0000001A⟩]
      ∧ ∀ d ∈ PixeLINKCodes,
          d.name ≠ "ApiSuccess" → d.name ≠ "ApiSuccessParametersChanged" →
            d.name ≠ "ApiSuccessAlreadyRunning" → failureBit d.value = true := by
  and_intros <;> decide

/-- C3: the `extern "C"` block declares 23 entry points, `PxLFormatClip` first and
`PxLLoadSettings` last, with pairwise different names; each of them has return type
`PXL_RETURN_CODE`, which is a typedef of `int`, so none returns `void`, a `HANDLE`,
a pointer or a structure. -/
theorem entry_points_return_int :
    PixeLINKApi.length = 23
      ∧ PixeLINKApi.head?.map Prototype.name = some "PxLFormatClip"
      ∧ PixeLINKApi.getLast?.map Prototype.name = some "PxLLoadSettings"
      ∧ (PixeLINKApi.map Prototype.name).Nodup
      ∧ resolve (.name "PXL_RETURN_CODE") = .name "int"
      ∧ ∀ f ∈ PixeLINKApi,
          f.ret = .name "PXL_RETURN_CODE"
            ∧ resolve f.ret = .name "int"
            ∧ resolve f.ret ≠ .name "void"
            ∧ resolve f.ret ≠ .name "HANDLE"
            ∧ (resolve f.ret).isPtr = false
            ∧ (resolve f.ret).isStruct = false := by
  and_intros <;> decide

/-- C4 (as stated, refuted): `FEATURE_LOOKUP_TABLE` is a feature identifier below
`FEATURES_TOTAL`, and `FRAME_DESC` has no nested structure for it. -/
theorem lookup_table_has_no_subRecord :
    FEATURE_LOOKUP_TABLE < FEATURES_TOTAL ∧ ¬ hasSubRecord FEATURE_LOOKUP_TABLE := by
  unfold hasSubRecord
  decide

/-- C4 (amended): `FRAME_DESC` declares 25 nested structures, and it contains one
for feature `i` exactly when `i` is at most `FEATURE_AUTO_ROI` (24), that is for
`FEATURE_BRIGHTNESS .. FEATURE_AUTO_ROI`; the identifiers `FEATURE_LOOKUP_TABLE`
and `FEATURE_MEMORY_CHANNEL`, although below `FEATURES_TOTAL`, have none. -/
theorem subRecord_iff_le_auto_roi :
    FRAME_DESC.subRecords.length = 25
      ∧ (∀ i, hasSubRecord i ↔ i ≤ FEATURE_AUTO_ROI)
      ∧ FEATURE_LOOKUP_TABLE < FEATURES_TOTAL ∧ ¬ hasSubRecord FEATURE_LOOKUP_TABLE
      ∧ FEATURE_MEMORY_CHANNEL < FEATURES_TOTAL
      ∧ ¬ hasSubRecord FEATURE_MEMORY_CHANNEL := by
  have key : ∀ i, hasSubRecord i ↔ i ≤ FEATURE_AUTO_ROI := by
    intro i
    have h1 : hasSubRecord i ↔ i ∈ frameDescFeatures := by
      unfold hasSubRecord frameDescFeatures
      rw [List.mem_filterMap]
    have h2 : frameDescFeatures = List.range 25 := by decide
    rw [h1, h2, List.mem_range]
    unfold FEATURE_AUTO_ROI
    omega
  refine ⟨by decide, key, by decide, ?_, by decide, ?_⟩
  · rw [key]; decide
  · rw [key]; decide

/-- The layout of `FRAME_DESC` depends on the platform only through the widths of
`ULONG` and `float`. -/
theorem FRAME_DESC_items (P : Platform) (hU : P.sizeofULONG = 4) (hF : P.sizeofFloat = 4) :
    structItems P FRAME_DESC = structItems win32 FRAME_DESC := by
  obtain ⟨u, _, _, _, _, _, fl, _, _⟩ := P
  simp only at hU hF
  subst hU hF
  rfl

/-- The layout of `CAMERA_INFO` depends on the platform only through the width of
`CHAR`. -/
theorem CAMERA_INFO_items (P : Platform) (hC : P.sizeofCHAR = 1) :
    structItems P CAMERA_INFO = structItems win32 CAMERA_INFO := by
  obtain ⟨_, _, _, _, _, c, _, _, _⟩ := P
  simp only at hC
  subst hC
  rfl

/-- The layout of `ERROR_REPORT` depends on the platform only through the widths of
`int` and `CHAR`. -/
theorem ERROR_REPORT_items (P : Platform) (hI : P.sizeofInt = 4) (hC : P.sizeofCHAR = 1) :
    structItems P ERROR_REPORT = structItems win32 ERROR_REPORT := by
  obtain ⟨_, _, _, _, _, c, _, i, _⟩ := P
  simp only at hI hC
  subst hI hC
  rfl

/-- C5: on a platform where `U32` (`ULONG`) and `float` are 4 bytes wide,
`FRAME_DESC` consists of `uSize` at offset 0, `fFrameTime` at offset 4 and
`uFrameNumber` at offset 8, followed by nested structures of `float` only that
declare 118 float slots (80 = 5 * `PXL_MAX_STROBES` in `GPIO`,
4 = `PXL_MAX_KNEE_POINTS` in `ExtendedShutter`); every data member lies at a
multiple of 4, the members fill the structure without padding, `GPIO` is at
offset 96, `AutoROI` at offset 468, and the size is 484 bytes. -/
theorem FRAME_DESC_layout (P : Platform) (hU : P.sizeofULONG = 4)
    (hF : P.sizeofFloat = 4) :
    FRAME_DESC.members.take 3
        = [ .field ⟨.name "U32", "uSize", none⟩, .field ⟨.name "float", "fFrameTime", none⟩,
            .field ⟨.name "U32", "uFrameNumber", none⟩ ]
      ∧ offsetOf P FRAME_DESC "uSize" = some 0
      ∧ offsetOf P FRAME_DESC "fFrameTime" = some 4
      ∧ offsetOf P FRAME_DESC "uFrameNumber" = some 8
      ∧ (FRAME_DESC.members.drop 3).all Member.isFloatRecord = true
      ∧ floatSlots ((FRAME_DESC.members.drop 3).flatMap Member.fields) = 118
      ∧ floatSlots (FRAME_DESC.fieldsOf "GPIO") = 5 * PXL_MAX_STROBES
      ∧ 5 * PXL_MAX_STROBES = 80
      ∧ floatSlots (FRAME_DESC.fieldsOf "ExtendedShutter") = PXL_MAX_KNEE_POINTS
      ∧ PXL_MAX_KNEE_POINTS = 4
      ∧ (leafLayout P FRAME_DESC).map (fun ls => ls.all (fun p => p.offset % 4 = 0))
          = some true
      ∧ (structLayout P FRAME_DESC).map Layout.noPadding = some true
      ∧ sizeofStruct P FRAME_DESC = some 484
      ∧ 484 = 3 * 4 + 118 * 4
      ∧ offsetOf P FRAME_DESC "GPIO" = some 96
      ∧ offsetOf P FRAME_DESC "AutoROI" = some 468 := by
  have hL : structLayout P FRAME_DESC = structLayout win32 FRAME_DESC := by
    unfold structLayout
    rw [FRAME_DESC_items P hU hF]
  unfold offsetOf leafLayout sizeofStruct
  rw [hL]
  and_intros <;> decide

/-- C5 at the 32-bit Windows platform. -/
theorem FRAME_DESC_layout_win32 :
    win32.sizeofULONG = 4 ∧ win32.sizeofFloat = 4
      ∧ sizeofStruct win32 FRAME_DESC = some 484
      ∧ offsetOf win32 FRAME_DESC "GPIO" = some 96
      ∧ offsetOf win32 FRAME_DESC "AutoROI" = some 468 :=
  have h := FRAME_DESC_layout win32 rfl rfl
  ⟨rfl, rfl, h.2.2.2.2.2.2.2.2.2.2.2.2.1, h.2.2.2.2.2.2.2.2.2.2.2.2.2.2.1,
    h.2.2.2.2.2.2.2.2.2.2.2.2.2.2.2⟩

/-- A bitwise OR is zero only when both sides are. -/
theorem lor_eq_zero (a b : Nat) : a ||| b = 0 ↔ a = 0 ∧ b = 0 := by
  constructor
  · intro h
    have hbit : ∀ i, (a.testBit i || b.testBit i) = false := by
      intro i
      rw [← Nat.testBit_or, h, Nat.zero_testBit]
    constructor
    · apply Nat.eq_of_testBit_eq
      intro i
      have := hbit i
      rw [Nat.zero_testBit]
      cases hx : a.testBit i
      · rfl
      · rw [hx] at this
        simp at this
    · apply Nat.eq_of_testBit_eq
      intro i
      have := hbit i
      rw [Nat.zero_testBit]
      cases hx : b.testBit i
      · rfl
      · rw [hx] at this
        simp at this
  · rintro ⟨rfl, rfl⟩
    rfl

/-- A flag is absent from the OR of `S` exactly when it is absent from every element
of `S`. -/
theorem flagsOr_and_eq_zero (S : List Nat) (f : Nat) :
    flagsOr S &&& f = 0 ↔ ∀ x ∈ S, x &&& f = 0 := by
  induction S with
  | nil => simp [flagsOr]
  | cons x S ih =>
    have hstep : flagsOr (x :: S) = x ||| flagsOr S := rfl
    rw [hstep, Nat.and_comm, Nat.and_or_distrib_left, lor_eq_zero, Nat.and_comm f x,
      Nat.and_comm f (flagsOr S), ih]
    simp

/-- C6: the seven `FEATURE_FLAG_*` constants are single bits `2 ^ k` with `k < 7`,
any two of them have bitwise AND 0, for every collection `S` of flags and every flag
`f`, `f` is in `S` if and only if `(OR of S) AND f` is non-zero, and the OR of all
seven is `0x7F`. -/
theorem featureFlags_bitmask :
    featureFlags.length = 7
      ∧ (∀ f ∈ featureFlags, ∃ k < 7, f = 2 ^ k)
      ∧ featureFlags.Pairwise (fun a b => a &&& b = 0)
      ∧ (∀ S : List Nat, (∀ x ∈ S, x ∈ featureFlags) →
          ∀ f ∈ featureFlags, (f ∈ S ↔ flagsOr S &&& f ≠ 0))
      ∧ flagsOr featureFlags = 0x7F := by
  refine ⟨by decide, by decide, by decide, ?_, by decide⟩
  intro S hS f hf
  have hpair : ∀ x ∈ featureFlags, ∀ g ∈ featureFlags, (x &&& g = 0 ↔ x ≠ g) := by decide
  rw [Ne, flagsOr_and_eq_zero]
  constructor
  · intro hmem hall
    have h0 := hall f hmem
    exact ((hpair f hf f hf).1 h0) rfl
  · intro hnot
    by_contra hmem
    apply hnot
    intro x hx
    rw [hpair x (hS x hx) f hf]
    intro hxf
    exact hmem (hxf ▸ hx)

/-- C7 (as stated, refuted): `PxLGetNextFrame` fills the caller-allocated buffer
`pFrame` but declares no `IN OUT PU32` parameter, so not every listed entry point
passes the size of its buffer through an in/out size parameter. -/
theorem getNextFrame_has_no_inout_size :
    ¬ (∀ e ∈ variableLengthOutputs, ∃ f ∈ PixeLINKApi,
        f.name = e.1 ∧ hasOutParam f e.2 = true ∧ hasInOutSize f = true) := by
  decide

/-- C7 (amended): `PxLFormatImage` (`pDest`), `PxLGetCameraFeatures`
(`pFeatureInfo`), `PxLGetFeature` (`pParms`) and `PxLGetNumberCameras`
(`pSerialNumbers`) declare the buffer as an `OUT` parameter and its size as an
`IN OUT PU32` parameter (`pDestBufferSize`, `pBufferSize`, `pNumberParms`,
`pNumberSerial`); `PxLGetNextFrame` declares the buffer `OUT LPVOID pFrame` and its
size by value, `IN U32 uBufferSize`, and has no `IN OUT` parameter. -/
theorem output_buffer_sizes :
    (∀ e ∈ variableLengthOutputs, e.1 ≠ "PxLGetNextFrame" →
        ∃ f ∈ PixeLINKApi, f.name = e.1 ∧ hasOutParam f e.2 = true ∧ hasInOutSize f = true)
      ∧ (∃ f ∈ PixeLINKApi, f.name = "PxLFormatImage"
          ∧ arg .IN_OUT "PU32" "pDestBufferSize" ∈ f.params)
      ∧ (∃ f ∈ PixeLINKApi, f.name = "PxLGetCameraFeatures"
          ∧ arg .IN_OUT "PU32" "pBufferSize" ∈ f.params)
      ∧ (∃ f ∈ PixeLINKApi, f.name = "PxLGetFeature"
          ∧ arg .IN_OUT "PU32" "pNumberParms" ∈ f.params)
      ∧ (∃ f ∈ PixeLINKApi, f.name = "PxLGetNumberCameras"
          ∧ arg .IN_OUT "PU32" "pNumberSerial" ∈ f.params)
      ∧ (∃ f ∈ PixeLINKApi, f.name = "PxLGetNextFrame"
          ∧ arg .OUT "LPVOID" "pFrame" ∈ f.params
          ∧ arg .IN "U32" "uBufferSize" ∈ f.params
          ∧ ∀ p ∈ f.params, p.dir ≠ .IN_OUT) := by
  and_intros <;> decide

/-- C8: `CAMERA_INFO` consists only of `S8` (`CHAR`) arrays of declared length,
`VendorName[33]`, `ModelName[33]`, `Description[256]`, `SerialNumber[33]`,
`FirmwareVersion[12]`, `FPGAVersion[12]`, `CameraName[256]`; with `CHAR` one byte
wide they lie at offsets 0, 33, 66, 322, 355, 367, 379 without padding and the size
is 635 bytes. -/
theorem CAMERA_INFO_layout (P : Platform) (hC : P.sizeofCHAR = 1) :
    CAMERA_INFO.members.all Member.isCharArray = true
      ∧ resolve (.name "S8") = .name "CHAR"
      ∧ CAMERA_INFO.members.flatMap Member.fields
          = [ ⟨.name "S8", "VendorName", some 33⟩, ⟨.name "S8", "ModelName", some 33⟩,
              ⟨.name "S8", "Description", some 256⟩, ⟨.name "S8", "SerialNumber", some 33⟩,
              ⟨.name "S8", "FirmwareVersion", some 12⟩, ⟨.name "S8", "FPGAVersion", some 12⟩,
              ⟨.name "S8", "CameraName", some 256⟩ ]
      ∧ (structLayout P CAMERA_INFO).map Layout.placed
          = some [ ⟨"VendorName", 0, 33⟩, ⟨"ModelName", 33, 33⟩, ⟨"Description", 66, 256⟩,
                   ⟨"SerialNumber", 322, 33⟩, ⟨"FirmwareVersion", 355, 12⟩,
                   ⟨"FPGAVersion", 367, 12⟩, ⟨"CameraName", 379, 256⟩ ]
      ∧ (structLayout P CAMERA_INFO).map Layout.noPadding = some true
      ∧ sizeofStruct P CAMERA_INFO = some 635 := by
  have hL : structLayout P CAMERA_INFO = structLayout win32 CAMERA_INFO := by
    unfold structLayout
    rw [CAMERA_INFO_items P hC]
  unfold sizeofStruct
  rw [hL]
  and_intros <;> decide

/-- C8 at the 32-bit Windows platform. -/
theorem CAMERA_INFO_layout_win32 :
    win32.sizeofCHAR = 1 ∧ sizeofStruct win32 CAMERA_INFO = some 635 :=
  ⟨rfl, (CAMERA_INFO_layout win32 rfl).2.2.2.2.2⟩

/-- C9: `ERROR_REPORT` has exactly the four members `uReturnCode` (a
`PXL_RETURN_CODE`), `strFunctionName[32]`, `strReturnCode[32]` and `strReport[256]`
(arrays of `S8`), none of them a `HANDLE`; with `int` 4 bytes and `CHAR` one byte
wide they lie at offsets 0, 4, 36 and 68 without padding and the size is 324
bytes. -/
theorem ERROR_REPORT_layout (P : Platform) (hI : P.sizeofInt = 4) (hC : P.sizeofCHAR = 1) :
    ERROR_REPORT.members
        = [ .field ⟨.name "PXL_RETURN_CODE", "uReturnCode", none⟩,
            .field ⟨.name "S8", "strFunctionName", some 32⟩,
            .field ⟨.name "S8", "strReturnCode", some 32⟩,
            .field ⟨.name "S8", "strReport", some 256⟩ ]
      ∧ (∀ f ∈ ERROR_REPORT.members.flatMap Member.fields,
          f.type ≠ .name "HANDLE" ∧ resolve f.type ≠ .name "HANDLE"
            ∧ (resolve f.type).isPtr = false)
      ∧ sizeofScalar P (.name "PXL_RETURN_CODE") = some 4
      ∧ (structLayout P ERROR_REPORT).map Layout.placed
          = some [ ⟨"uReturnCode", 0, 4⟩, ⟨"strFunctionName", 4, 32⟩,
                   ⟨"strReturnCode", 36, 32⟩, ⟨"strReport", 68, 256⟩ ]
      ∧ (structLayout P ERROR_REPORT).map Layout.noPadding = some true
      ∧ sizeofStruct P ERROR_REPORT = some 324 := by
  have hL : structLayout P ERROR_REPORT = structLayout win32 ERROR_REPORT := by
    unfold structLayout
    rw [ERROR_REPORT_items P hI hC]
  have hS : sizeofScalar P (.name "PXL_RETURN_CODE") = some 4 := by
    have : sizeofScalar P (.name "PXL_RETURN_CODE") = some P.sizeofInt := by rfl
    rw [this, hI]
  unfold sizeofStruct
  rw [hL]
  refine ⟨by decide, by decide, hS, by decide, by decide, by decide⟩

/-- C9 at the 32-bit Windows platform. -/
theorem ERROR_REPORT_layout_win32 :
    win32.sizeofInt = 4 ∧ win32.sizeofCHAR = 1
      ∧ sizeofStruct win32 ERROR_REPORT = some 324 :=
  ⟨rfl, rfl, (ERROR_REPORT_layout win32 rfl rfl).2.2.2.2.2⟩

/-- C10: `PxLInitialize` is the only entry point that declares
`OUT HANDLE* phCamera` (the only other `OUT HANDLE*` of the table is the descriptor
handle `pDescriptorHandle` of `PxLCreateDescriptor`), `PxLUninitialize` declares
`IN HANDLE hCamera` as its single parameter, and an entry point declares
`IN HANDLE hCamera` as its first parameter exactly when it is not one of
`PxLInitialize`, `PxLFormatClip`, `PxLFormatImage`, `PxLGetNumberCameras`. -/
theorem camera_handle_only_from_initialize :
    (∀ f ∈ PixeLINKApi, outCameraHandle ∈ f.params ↔ f.name = "PxLInitialize")
      ∧ (∀ f ∈ PixeLINKApi, ∀ p ∈ f.params,
          (∃ n, p = .plain ⟨.OUT, .ptr (.name "HANDLE"), n⟩) →
            (f.name = "PxLInitialize" ∧ p.name = "phCamera")
              ∨ (f.name = "PxLCreateDescriptor" ∧ p.name = "pDescriptorHandle"))
      ∧ (∃ f ∈ PixeLINKApi, f.name = "PxLUninitialize" ∧ f.params = [inCameraHandle])
      ∧ (∀ f ∈ PixeLINKApi,
          f.params.head? = some inCameraHandle
            ↔ f.name ∉ ["PxLInitialize", "PxLFormatClip", "PxLFormatImage",
                        "PxLGetNumberCameras"]) := by
  refine ⟨by decide, ?_, by decide, by decide⟩
  have h : ∀ f ∈ PixeLINKApi, ∀ p ∈ f.params,
      p = .plain ⟨.OUT, .ptr (.name "HANDLE"), p.name⟩ →
        (f.name = "PxLInitialize" ∧ p.name = "phCamera")
          ∨ (f.name = "PxLCreateDescriptor" ∧ p.name = "pDescriptorHandle") := by
    decide
  intro f hf p hp hex
  obtain ⟨n, hn⟩ := hex
  apply h f hf p hp
  rw [hn]
  rfl

/-- With a 4-byte `int`, conversion to `PXL_RETURN_CODE` is conversion to 32 bits. -/
theorem toReturnCode_int32 (P : Platform) (hI : P.sizeofInt = 4) (c : Nat) :
    toReturnCode P c = toSigned 32 c := by
  unfold toReturnCode
  rw [hI]

/-- C11: with `int` 4 bytes wide, a constant of `PixeLINKCodes.h` converted to
`PXL_RETURN_CODE` is negative if and only if its bit 31 is set; each of the 34
constants with prefix `0x8` or `0x9` becomes negative, `ApiSuccess`,
`ApiSuccessParametersChanged` and `ApiSuccessAlreadyRunning` become 0, 0x15 and
0x1A, and the conversion is injective on all 37 constants. -/
theorem returnCode_negative_iff_failure (P : Platform) (hI : P.sizeofInt = 4) :
    resolve (.name "PXL_RETURN_CODE") = .name "int"
      ∧ (∀ d ∈ PixeLINKCodes, toReturnCode P d.value < 0 ↔ failureBit d.value = true)
      ∧ failureCodes.length = 34
      ∧ (∀ d ∈ failureCodes,
          (d.value / 2 ^ 28 = 0x8 ∨ d.value / 2 ^ 28 = 0x9) ∧ toReturnCode P d.value < 0)
      ∧ toReturnCode P ApiSuccess = 0
      ∧ toReturnCode P ApiSuccessParametersChanged = 0x15
      ∧ toReturnCode P ApiSuccessAlreadyRunning = 0x1A
      ∧ (∀ d ∈ successCodes, 0 ≤ toReturnCode P d.value)
      ∧ PixeLINKCodes.length = 37
      ∧ (PixeLINKCodes.map (fun d => toReturnCode P d.value)).Nodup := by
  simp only [toReturnCode_int32 P hI]
  and_intros <;> decide

/-- C11 at the 32-bit Windows platform. -/
theorem returnCode_negative_iff_failure_win32 :
    win32.sizeofInt = 4
      ∧ (∀ d ∈ PixeLINKCodes, toReturnCode win32 d.value < 0 ↔ failureBit d.value = true)
      ∧ (PixeLINKCodes.map (fun d => toReturnCode win32 d.value)).Nodup :=
  have h := returnCode_negative_iff_failure win32 rfl
  ⟨rfl, h.2.1, h.2.2.2.2.2.2.2.2.2⟩

/-- C12: the 27 `FEATURE_*` identifiers are the values 0, 1, ..., 26 in file order,
hence pairwise distinct, and every integer of `0..26` is the value of exactly one of
them; `FEATURES_TOTAL` is their count, 27, one more than the largest identifier
`FEATURE_MEMORY_CHANNEL`; `FEATURE_ALL` (`0xFFFFFFFF`) is at least `FEATURES_TOTAL`
and is not the value of an identifier. -/
theorem featureIds_contiguous :
    featureIds.length = 27
      ∧ featureIds.map Define.value = List.range 27
      ∧ featureIds.head?.map Define.name = some "FEATURE_BRIGHTNESS"
      ∧ featureIds.getLast?.map Define.name = some "FEATURE_MEMORY_CHANNEL"
      ∧ (featureIds.map Define.value).Nodup
      ∧ (featureIds.map Define.name).Nodup
      ∧ (∀ n, n < 27 → (featureIds.filter (fun d => d.value = n)).length = 1)
      ∧ (∀ d ∈ featureIds, d.value < FEATURES_TOTAL)
      ∧ FEATURES_TOTAL = featureIds.length
      ∧ FEATURES_TOTAL = FEATURE_MEMORY_CHANNEL + 1
      ∧ (∀ d ∈ featureIds, d.value ≤ FEATURE_MEMORY_CHANNEL)
      ∧ FEATURE_ALL = 0xFFFFFFFF
      ∧ FEATURES_TOTAL ≤ FEATURE_ALL
      ∧ (∀ d ∈ featureIds, d.value ≠ FEATURE_ALL) := by
  and_intros <;> decide

/-- C14: clearing bit 31 of the 27 constants `ApiSuccess .. ApiSuccessAlreadyRunning`
gives 0x00, 0x01, ..., 0x1A in file order, each value once, so no success code has
the ordinal of a failure code; clearing bit 31 is injective on all 37 constants,
the `0x9000000x` family included. -/
theorem clearBit31_gap_free :
    primaryCodes.length = 27
      ∧ primaryCodes.head?.map Define.name = some "ApiSuccess"
      ∧ primaryCodes.getLast?.map Define.name = some "ApiSuccessAlreadyRunning"
      ∧ primaryCodes.map (fun d => clearBit31 d.value) = List.range (0x1A + 1)
      ∧ (∀ n, n ≤ 0x1A →
          (primaryCodes.filter (fun d => clearBit31 d.value = n)).length = 1)
      ∧ (∀ s ∈ successCodes, ∀ d ∈ failureCodes, clearBit31 s.value ≠ clearBit31 d.value)
      ∧ PixeLINKCodes.length = 37
      ∧ (PixeLINKCodes.map (fun d => clearBit31 d.value)).Nodup := by
  and_intros <;> decide

/-- Aligning never moves an offset down. -/
theorem le_alignUp (off a : Nat) : off ≤ alignUp off a := by
  unfold alignUp
  split
  · exact Nat.le_refl _
  · rename_i h
    have ha : 0 < a := Nat.pos_of_ne_zero h
    have h1 := Nat.div_add_mod (off + a - 1) a
    have h2 := Nat.mod_lt (off + a - 1) ha
    rw [Nat.mul_comm]
    generalize a * ((off + a - 1) / a) = x at h1 ⊢
    generalize (off + a - 1) % a = r at h1 h2
    omega

theorem placeFrom_cons_placed (off a : Nat) (it : Item) (rest : List Item) :
    (placeFrom off a (it :: rest)).placed
      = ⟨it.name, alignUp off it.align, it.size⟩
          :: (placeFrom (alignUp off it.align + it.size) (max a it.align) rest).placed :=
  rfl

/-- The members placed by `placeFrom` keep the names and sizes of the items, start
at `off` or later, and do not overlap. -/
theorem placeFrom_placed (items : List Item) : ∀ off a : Nat,
    (placeFrom off a items).placed.map Placed.name = items.map Item.name
      ∧ (placeFrom off a items).placed.map Placed.size = items.map Item.size
      ∧ (∀ p ∈ (placeFrom off a items).placed, off ≤ p.offset)
      ∧ (placeFrom off a items).placed.Pairwise (fun p q => p.offset + p.size ≤ q.offset) := by
  induction items with
  | nil =>
    intro off a
    simp [placeFrom]
  | cons it rest ih =>
    intro off a
    obtain ⟨hn, hs, hge, hpw⟩ := ih (alignUp off it.align + it.size) (max a it.align)
    rw [placeFrom_cons_placed]
    refine ⟨?_, ?_, ?_, ?_⟩
    · simp [hn]
    · simp [hs]
    · intro p hp
      rcases List.mem_cons.1 hp with rfl | hp
      · exact le_alignUp off it.align
      · have := hge p hp
        have := le_alignUp off it.align
        omega
    · rw [List.pairwise_cons]
      refine ⟨?_, hpw⟩
      intro q hq
      exact hge q hq

theorem placeFrom_cons_size (off a : Nat) (it : Item) (rest : List Item) :
    (placeFrom off a (it :: rest)).size
      = (placeFrom (alignUp off it.align + it.size) (max a it.align) rest).size :=
  rfl

/-- The end offset computed by `placeFrom` leaves room for every item. -/
theorem placeFrom_size (items : List Item) : ∀ off a : Nat,
    off + (items.map Item.size).sum ≤ (placeFrom off a items).size := by
  induction items with
  | nil =>
    intro off a
    simp [placeFrom]
  | cons it rest ih =>
    intro off a
    have h1 := ih (alignUp off it.align + it.size) (max a it.align)
    have h2 := le_alignUp off it.align
    rw [placeFrom_cons_size, List.map_cons, List.sum_cons]
    omega

theorem layoutItems_placed (items : List Item) :
    (layoutItems items).placed = (placeFrom 0 1 items).placed :=
  rfl

/-- A structure is at least as large as its members together. -/
theorem layoutItems_size (items : List Item) :
    (items.map Item.size).sum ≤ (layoutItems items).size := by
  have h1 : (layoutItems items).size
      = alignUp (placeFrom 0 1 items).size (placeFrom 0 1 items).align := rfl
  have h2 := placeFrom_size items 0 1
  have h3 := le_alignUp (placeFrom 0 1 items).size (placeFrom 0 1 items).align
  omega

/-- A `float` data member is always laid out, with the width of `float` per slot. -/
theorem fieldItem_float (P : Platform) (f : Field) (h : f.type = .name "float") :
    ∃ it, fieldItem P f = some it ∧ it.name = f.name
      ∧ it.size = P.sizeofFloat * f.len.getD 1 := by
  obtain ⟨t, n, l⟩ := f
  simp only at h
  subst h
  exact ⟨_, rfl, rfl, rfl⟩

/-- A `U32` data member is always laid out. -/
theorem fieldItem_U32 (P : Platform) (f : Field) (h : f.type = .name "U32") :
    ∃ it, fieldItem P f = some it ∧ it.name = f.name := by
  obtain ⟨t, n, l⟩ := f
  simp only at h
  subst h
  exact ⟨_, rfl, rfl⟩

/-- A run of `float` data members is laid out, in at least the room of its slots. -/
theorem fieldsLayout_float (P : Platform) (fs : List Field)
    (h : ∀ f ∈ fs, f.type = .name "float") :
    ∃ its, fs.mapM (fieldItem P) = some its
      ∧ (its.map Item.size).sum = P.sizeofFloat * (fs.map (fun f => f.len.getD 1)).sum := by
  induction fs with
  | nil => exact ⟨[], rfl, by simp⟩
  | cons f rest ih =>
    obtain ⟨its, h1, h2⟩ := ih (fun g hg => h g (List.mem_cons_of_mem _ hg))
    obtain ⟨it, h3, _, h5⟩ := fieldItem_float P f (h f (List.mem_cons_self _ _))
    refine ⟨it :: its, ?_, ?_⟩
    · rw [List.mapM_cons, h3, h1]
      rfl
    · rw [List.map_cons, List.sum_cons, List.map_cons, List.sum_cons, h2, h5, Nat.mul_add]

/-- A member of the shapes found in `FRAME_DESC` is laid out under its own name, and
a nested structure of `float` members takes at least the room of its slots. -/
theorem memberItem_frame (P : Platform) (m : Member) (h : m.isFrameMember = true) :
    ∃ it, memberItem P m = some it ∧ it.name = m.name
      ∧ (m.isFloatRecord = true → P.sizeofFloat * m.slots ≤ it.size) := by
  cases m with
  | field f =>
    have hf : f.type = .name "U32" ∨ f.type = .name "float" := by
      simpa [Member.isFrameMember] using h
    rcases hf with hf | hf
    · obtain ⟨it, h1, h2⟩ := fieldItem_U32 P f hf
      exact ⟨it, h1, h2, by simp [Member.isFloatRecord]⟩
    · obtain ⟨it, h1, h2, _⟩ := fieldItem_float P f hf
      exact ⟨it, h1, h2, by simp [Member.isFloatRecord]⟩
  | sub t n fs =>
    have hfs : ∀ f ∈ fs, f.type = .name "float" := by
      simpa [Member.isFrameMember] using h
    obtain ⟨its, h1, h2⟩ := fieldsLayout_float P fs hfs
    refine ⟨⟨n, (layoutItems its).size, (layoutItems its).align,
      (layoutItems its).leaves.map (fun q => ⟨n ++ "." ++ q.name, q.offset, q.size⟩)⟩,
      ?_, rfl, ?_⟩
    · show (fieldsLayout P fs).map _ = _
      unfold fieldsLayout
      rw [h1]
      rfl
    · intro _
      have := layoutItems_size its
      rw [h2] at this
      exact this

/-- Members of the shapes found in `FRAME_DESC` are all laid out, under their own
names; where the members from position `k` on are non-empty nested structures of
`float`, the items from position `k` on have a positive size. -/
theorem structItems_frame (P : Platform) (hF : 0 < P.sizeofFloat) (ms : List Member) :
    (∀ m ∈ ms, m.isFrameMember = true) →
    ∃ its, ms.mapM (memberItem P) = some its
      ∧ its.map Item.name = ms.map Member.name
      ∧ ∀ k, (∀ m ∈ ms.drop k, m.isFloatRecord = true ∧ 0 < m.slots) →
          ∀ it ∈ its.drop k, 0 < it.size := by
  induction ms with
  | nil =>
    intro _
    exact ⟨[], rfl, rfl, by simp⟩
  | cons m rest ih =>
    intro hms
    obtain ⟨its, h1, h2, h3⟩ := ih (fun x hx => hms x (List.mem_cons_of_mem _ hx))
    obtain ⟨it, h4, h5, h6⟩ := memberItem_frame P m (hms m (List.mem_cons_self _ _))
    refine ⟨it :: its, ?_, ?_, ?_⟩
    · rw [List.mapM_cons, h4, h1]
      rfl
    · rw [List.map_cons, List.map_cons, h2, h5]
    · intro k hk x hx
      cases k with
      | zero =>
        rw [List.drop_zero] at hk hx
        rcases List.mem_cons.1 hx with rfl | hx
        · obtain ⟨hfl, hsl⟩ := hk m (List.mem_cons_self _ _)
          exact Nat.lt_of_lt_of_le (Nat.mul_pos hF hsl) (h6 hfl)
        · apply h3 0 _ x
          · rw [List.drop_zero]
            exact hx
          · intro y hy
            rw [List.drop_zero] at hy
            exact hk y (List.mem_cons_of_mem _ hy)
      | succ k =>
        rw [List.drop_succ_cons] at hk hx
        exact h3 k hk x hx

/-- C13: the nested structures of `FRAME_DESC` are the 25 members after the three
header fields, named `Brightness`, `AutoExposure`, ..., `AutoROI`; for every `k` in
`0..24` the `k`-th of them is the one for the feature whose identifier is `k`
(`FEATURE_BRIGHTNESS = 0` .. `FEATURE_AUTO_ROI = 24`); and on every platform whose
`float` has a positive width their offsets, taken in this order, are strictly
increasing. -/
theorem subRecords_in_feature_order (P : Platform) (hF : 0 < P.sizeofFloat) :
    FRAME_DESC.members.drop 3 = FRAME_DESC.subRecords
      ∧ FRAME_DESC.subRecords.map Member.name
          = [ "Brightness", "AutoExposure", "Sharpness", "WhiteBalance", "Hue",
              "Saturation", "Gamma", "Shutter", "Gain", "Iris", "Focus", "Temperature",
              "Trigger", "Zoom", "Pan", "Tilt", "OpticalFilter", "GPIO", "FrameRate",
              "Roi", "Flip", "Decimation", "PixelFormat", "ExtendedShutter", "AutoROI" ]
      ∧ (∀ k, k < 25 →
          (FRAME_DESC.subRecords.get? k).bind (fun m => subRecordFeature m.name) = some k)
      ∧ FEATURE_BRIGHTNESS = 0 ∧ FEATURE_AUTO_ROI = 24
      ∧ ∃ ps, (structLayout P FRAME_DESC).map (fun L => L.placed.drop 3) = some ps
          ∧ ps.map Placed.name = FRAME_DESC.subRecords.map Member.name
          ∧ (ps.map Placed.offset).Pairwise (fun a b => a < b) := by
  refine ⟨by decide, by decide, by decide, by decide, by decide, ?_⟩
  obtain ⟨its, h1, h2, h3⟩ := structItems_frame P hF FRAME_DESC.members (by decide)
  have hL : structLayout P FRAME_DESC = some (layoutItems its) := by
    unfold structLayout structItems
    rw [h1]
    rfl
  obtain ⟨hn, hs, _, hpw⟩ := placeFrom_placed its 0 1
  rw [← layoutItems_placed] at hn hs hpw
  have hpos : ∀ p ∈ (layoutItems its).placed.drop 3, 0 < p.size := by
    intro p hp
    have hmem : p.size ∈ ((layoutItems its).placed.drop 3).map Placed.size :=
      List.mem_map_of_mem _ hp
    rw [List.map_drop, hs, ← List.map_drop] at hmem
    obtain ⟨it, hit, hsz⟩ := List.mem_map.1 hmem
    rw [← hsz]
    exact h3 3 (by decide) it hit
  refine ⟨(layoutItems its).placed.drop 3, ?_, ?_, ?_⟩
  · rw [hL]
    rfl
  · rw [List.map_drop, hn, h2]
    decide
  · rw [List.pairwise_map]
    have hsub := hpw.sublist (List.drop_sublist 3 (layoutItems its).placed)
    refine hsub.imp_of_mem ?_
    intro p q hp _ hpq
    have := hpos p hp
    omega

/-- C13 at the 32-bit Windows platform. -/
theorem subRecords_in_feature_order_win32 :
    0 < win32.sizeofFloat
      ∧ ∃ ps, (structLayout win32 FRAME_DESC).map (fun L => L.placed.drop 3) = some ps
          ∧ ps.map Placed.name = FRAME_DESC.subRecords.map Member.name
          ∧ (ps.map Placed.offset).Pairwise (fun a b => a < b) :=
  ⟨by decide, (subRecords_in_feature_order win32 (by decide)).2.2.2.2.2⟩

end PixeLINK
